import Mathlib

set_option maxRecDepth 10000

/-!
Shallow embedding of `src/create_graph.py` (TempleGraphArchitecture).

The Python module implements regex-based entity extraction over temple
descriptions and an upsert layer over a labelled graph store.  Strings are
embedded as Lean `String` (a list of characters); Python's `re` backtracking
matcher is embedded as a fuel-indexed continuation-passing matcher over a
small regex syntax covering exactly the constructs the source patterns use.
All patterns in the source are compiled with `re.IGNORECASE`, so the
character classes and literals here match case-insensitively.
-/

/-- Python `\s` (ASCII whitespace, as produced by `re` on ASCII text). -/
def isPySpace (c : Char) : Bool :=
  c == ' ' || c == '\t' || c == '\n' || c == '\x0d' || c == '\x0b' || c == '\x0c'

/-- ASCII uppercase test. -/
def isPyUpperChar (c : Char) : Bool := 'A' ≤ c && c ≤ 'Z'

/-- ASCII lowercase test. -/
def isPyLowerChar (c : Char) : Bool := 'a' ≤ c && c ≤ 'z'

/-- ASCII letter test: what `[a-zA-Z]` (and, under `re.IGNORECASE`, `[A-Z]`) matches. -/
def isPyAlphaChar (c : Char) : Bool := isPyUpperChar c || isPyLowerChar c

/-- Python `str.lower` on a single ASCII character. -/
def pyLowerChar : Char → Char
  | 'A' => 'a' | 'B' => 'b' | 'C' => 'c' | 'D' => 'd' | 'E' => 'e' | 'F' => 'f'
  | 'G' => 'g' | 'H' => 'h' | 'I' => 'i' | 'J' => 'j' | 'K' => 'k' | 'L' => 'l'
  | 'M' => 'm' | 'N' => 'n' | 'O' => 'o' | 'P' => 'p' | 'Q' => 'q' | 'R' => 'r'
  | 'S' => 's' | 'T' => 't' | 'U' => 'u' | 'V' => 'v' | 'W' => 'w' | 'X' => 'x'
  | 'Y' => 'y' | 'Z' => 'z'
  | c => c

/-- Python `str.upper` on a single ASCII character. -/
def pyUpperChar : Char → Char
  | 'a' => 'A' | 'b' => 'B' | 'c' => 'C' | 'd' => 'D' | 'e' => 'E' | 'f' => 'F'
  | 'g' => 'G' | 'h' => 'H' | 'i' => 'I' | 'j' => 'J' | 'k' => 'K' | 'l' => 'L'
  | 'm' => 'M' | 'n' => 'N' | 'o' => 'O' | 'p' => 'P' | 'q' => 'Q' | 'r' => 'R'
  | 's' => 'S' | 't' => 'T' | 'u' => 'U' | 'v' => 'V' | 'w' => 'W' | 'x' => 'X'
  | 'y' => 'Y' | 'z' => 'Z'
  | c => c

/-- Python `str.lower`. -/
def pyLower (s : String) : String := ⟨s.toList.map pyLowerChar⟩

/-- Python `str.strip()` on a character list: drop whitespace from both ends. -/
def pyStripList (l : List Char) : List Char :=
  ((l.dropWhile isPySpace).reverse.dropWhile isPySpace).reverse

/-- Python `str.strip()`. -/
def pyStrip (s : String) : String := ⟨pyStripList s.toList⟩

/-- Python `str.title()` worker: the boolean records whether the previous
character was a (cased) letter. -/
def pyTitleGo : Bool → List Char → List Char
  | _, [] => []
  | prevAlpha, c :: cs =>
    (if isPyAlphaChar c then (if prevAlpha then pyLowerChar c else pyUpperChar c) else c)
      :: pyTitleGo (isPyAlphaChar c) cs

/-- Python `str.title()`. -/
def pyTitle (s : String) : String := ⟨pyTitleGo false s.toList⟩

/-- Does `hay` start with `pat`? (helper for the Python `in` operator). -/
def startsWithList : List Char → List Char → Bool
  | [], _ => true
  | _ :: _, [] => false
  | p :: ps, h :: hs => p == h && startsWithList ps hs

/-- Substring test on character lists (Python `pat in hay`). -/
def containsList (pat : List Char) : List Char → Bool
  | [] => startsWithList pat []
  | c :: hs => startsWithList pat (c :: hs) || containsList pat hs

/-- Python `pat in hay` for strings. -/
def containsSubstr (hay pat : String) : Bool := containsList pat.toList hay.toList

/-- Syntax of the regular-expression fragment used by the source patterns:
character classes, literal characters (matched case-insensitively, since every
`re.findall` call in the source passes `re.IGNORECASE`), concatenation,
ordered alternation and greedy Kleene star. -/
inductive RE where
  | eps : RE
  | cls : (Char → Bool) → RE
  | lit : Char → RE
  | seq : RE → RE → RE
  | alt : RE → RE → RE
  | star : RE → RE

/-- Backtracking matcher in continuation-passing style, mirroring the Python
`re` engine: alternation tries the left branch first, star is greedy and
backtracks, and the first overall success wins.  `fuel` bounds the recursion
depth; every source pattern uses far less than the fuel supplied below. -/
def reRun {α : Type} : Nat → RE → List Char → (List Char → Option α) → Option α
  | 0, _, _, _ => none
  | _ + 1, .eps, s, k => k s
  | _ + 1, .cls p, s, k =>
    match s with
    | [] => none
    | c :: cs => if p c then k cs else none
  | _ + 1, .lit c, s, k =>
    match s with
    | [] => none
    | c2 :: cs => if pyLowerChar c2 = pyLowerChar c then k cs else none
  | fuel + 1, .seq a b, s, k => reRun fuel a s (fun s2 => reRun fuel b s2 k)
  | fuel + 1, .alt a b, s, k => (reRun fuel a s k) <|> (reRun fuel b s k)
  | fuel + 1, .star r, s, k =>
    (reRun fuel r s (fun s2 => reRun fuel (.star r) s2 k)) <|> k s

/-- A source pattern, split at its single capturing group:
`pre` is everything before the group, `grp` the group body, `post` the rest. -/
structure RPat where
  pre : RE
  grp : RE
  post : RE

/-- Try to match a pattern at the start of `s`; on success return the
characters captured by the group and the remainder of the input after the
whole match. -/
def reTryMatch (p : RPat) (s : List Char) : Option (List Char × List Char) :=
  let fuel := (s.length + 1) * 200
  reRun fuel p.pre s (fun s1 =>
    reRun fuel p.grp s1 (fun s2 =>
      reRun fuel p.post s2 (fun s3 =>
        some (s1.take (s1.length - s2.length), s3))))

/-- `re.findall` scan: try the pattern at each position, left to right; on a
match emit the group and resume after the match (advancing one position on a
zero-width match, as Python does). -/
def pyFindAllGo (p : RPat) : Nat → List Char → List (List Char)
  | 0, _ => []
  | fuel + 1, s =>
    match reTryMatch p s with
    | some (cap, rest) =>
      if rest.length < s.length then cap :: pyFindAllGo p fuel rest
      else
        cap :: (match s with
          | [] => []
          | _ :: cs => pyFindAllGo p fuel cs)
    | none =>
      match s with
      | [] => []
      | _ :: cs => pyFindAllGo p fuel cs

/-- `re.findall(pattern, text, re.IGNORECASE)` for a one-group pattern. -/
def pyFindAll (p : RPat) (text : String) : List String :=
  (pyFindAllGo p (text.length + 1) text.toList).map (fun l => ⟨l⟩)

/-- Literal string regex (each character matched case-insensitively). -/
def relit (s : String) : RE := s.toList.foldr (fun c r => RE.seq (RE.lit c) r) RE.eps

/-- `r+` as `r r*`. -/
def rePlus (r : RE) : RE := RE.seq r (RE.star r)

/-- `r?`. -/
def reOpt (r : RE) : RE := RE.alt r RE.eps

/-- The class `\s`. -/
def spaceCls : RE := RE.cls isPySpace

/-- The classes `[A-Z]` and `[a-zA-Z]`, which coincide under `re.IGNORECASE`. -/
def alphaCls : RE := RE.cls isPyAlphaChar

/-- `[A-Z][a-zA-Z]+`: one word of at least two letters. -/
def reWord : RE := RE.seq alphaCls (rePlus alphaCls)

/-- `[A-Z][a-zA-Z]+(?:\s+[A-Z][a-zA-Z]+)*`: the capitalized-phrase group used
by the deity and festival patterns. -/
def capPhrase : RE := RE.seq reWord (RE.star (RE.seq (rePlus spaceCls) reWord))

/-- The class `[:\s]`. -/
def colonSpaceCls : RE := RE.cls (fun c => c == ':' || isPySpace c)

/-- Pattern `(?:Lord|Goddess|Sri|Shri)\s+([A-Z][a-zA-Z]+(?:\s+[A-Z][a-zA-Z]+)*)`. -/
def deityPat1 : RPat :=
  ⟨RE.seq (RE.alt (relit "Lord") (RE.alt (relit "Goddess") (RE.alt (relit "Sri") (relit "Shri"))))
      (rePlus spaceCls),
    capPhrase, RE.eps⟩

/-- Pattern `([A-Z][a-zA-Z]+(?:\s+[A-Z][a-zA-Z]+)*)\s+(?:Temple|Swamy|Amman)`. -/
def deityPat2 : RPat :=
  ⟨RE.eps, capPhrase,
    RE.seq (rePlus spaceCls) (RE.alt (relit "Temple") (RE.alt (relit "Swamy") (relit "Amman")))⟩

/-- Pattern `dedicated to\s+([A-Z][a-zA-Z]+(?:\s+[A-Z][a-zA-Z]+)*)`. -/
def deityPat3 : RPat := ⟨RE.seq (relit "dedicated to") (rePlus spaceCls), capPhrase, RE.eps⟩

/-- Pattern `deity[:\s]+([A-Z][a-zA-Z]+(?:\s+[A-Z][a-zA-Z]+)*)`. -/
def deityPat4 : RPat := ⟨RE.seq (relit "deity") (rePlus colonSpaceCls), capPhrase, RE.eps⟩

/-- The `deity_patterns` list of the source. -/
def deity_patterns : List RPat := [deityPat1, deityPat2, deityPat3, deityPat4]

/-- Python `set.add` on an insertion-ordered representation of a `set`:
only membership (not order) of the result is ever used by the source. -/
def setAdd (l : List String) (x : String) : List String := if x ∈ l then l else l ++ [x]

/-- The `common_deities` gazetteer of the source. -/
def common_deities : List String :=
  ["Shiva", "Vishnu", "Krishna", "Rama", "Jagannath", "Venkateswara",
   "Balaji", "Meenakshi", "Parvati", "Lakshmi", "Saraswati", "Ganesha",
   "Hanuman", "Murugan", "Subhadra", "Balabhadra", "Sundareshwara"]

/-- `TempleGraphDB.extract_deities`. -/
def extract_deities (text : String) : List String :=
  if text = "" then []
  else
    let fromPatterns := deity_patterns.foldl (fun acc pat =>
      (pyFindAll pat text).foldl (fun acc2 m =>
        if 2 < (pyStrip m).length then setAdd acc2 (pyTitle (pyStrip m)) else acc2) acc) []
    common_deities.foldl (fun acc d =>
      if containsSubstr (pyLower text) (pyLower d) then setAdd acc d else acc) fromPatterns

/-- Pattern `([A-Z][a-zA-Z]+)\s+Purana`. -/
def scripPat1 : RPat := ⟨RE.eps, reWord, RE.seq (rePlus spaceCls) (relit "Purana")⟩

/-- Pattern `(Mahabharata|Ramayana|Bhagavad Gita|Vedas?)`. -/
def scripPat2 : RPat :=
  ⟨RE.eps,
    RE.alt (relit "Mahabharata") (RE.alt (relit "Ramayana")
      (RE.alt (relit "Bhagavad Gita") (RE.seq (relit "Veda") (reOpt (RE.lit 's'))))),
    RE.eps⟩

/-- Pattern `(Skanda Purana|Padma Purana|Varaha Purana|Bhagavata Purana)`. -/
def scripPat3 : RPat :=
  ⟨RE.eps,
    RE.alt (relit "Skanda Purana") (RE.alt (relit "Padma Purana")
      (RE.alt (relit "Varaha Purana") (relit "Bhagavata Purana"))),
    RE.eps⟩

/-- The `scripture_patterns` list of the source. -/
def scripture_patterns : List RPat := [scripPat1, scripPat2, scripPat3]

/-- `TempleGraphDB.extract_scriptures`. -/
def extract_scriptures (text : String) : List String :=
  if text = "" then []
  else
    scripture_patterns.foldl (fun acc pat =>
      (pyFindAll pat text).foldl (fun acc2 m => setAdd acc2 (pyTitle (pyStrip m))) acc) []

/-- `TempleGraphDB.extract_architectural_style`. -/
def extract_architectural_style (text : String) : List String :=
  if text = "" then []
  else
    let styles : List String := []
    let styles := if containsSubstr (pyLower text) "dravidian" then styles ++ ["Dravidian"] else styles
    let styles := if containsSubstr (pyLower text) "kalinga" then styles ++ ["Kalinga"] else styles
    let styles := if containsSubstr (pyLower text) "chola" then styles ++ ["Chola"] else styles
    let styles := if containsSubstr (pyLower text) "pallava" then styles ++ ["Pallava"] else styles
    let styles := if containsSubstr (pyLower text) "vijayanagara" then styles ++ ["Vijayanagara"] else styles
    styles

/-- Pattern `([A-Z][a-zA-Z]+(?:\s+[A-Z][a-zA-Z]+)*)\s+festival`. -/
def festPat1 : RPat := ⟨RE.eps, capPhrase, RE.seq (rePlus spaceCls) (relit "festival")⟩

/-- Pattern `festival[:\s]+([A-Z][a-zA-Z]+(?:\s+[A-Z][a-zA-Z]+)*)`. -/
def festPat2 : RPat := ⟨RE.seq (relit "festival") (rePlus colonSpaceCls), capPhrase, RE.eps⟩

/-- Pattern `(Brahmotsavam|Navaratri|Rath Yatra|Tirukalyanam)`. -/
def festPat3 : RPat :=
  ⟨RE.eps,
    RE.alt (relit "Brahmotsavam") (RE.alt (relit "Navaratri")
      (RE.alt (relit "Rath Yatra") (relit "Tirukalyanam"))),
    RE.eps⟩

/-- The `festival_patterns` list of the source. -/
def festival_patterns : List RPat := [festPat1, festPat2, festPat3]

/-- `TempleGraphDB.extract_festivals`. -/
def extract_festivals (text : String) : List String :=
  if text = "" then []
  else
    festival_patterns.foldl (fun acc pat =>
      (pyFindAll pat text).foldl (fun acc2 m =>
        if 3 < (pyStrip m).length then setAdd acc2 (pyTitle (pyStrip m)) else acc2) acc) []

/-- One temple record of the input document: the recognized fields, each
possibly absent (`temple_data.get(key, '')` supplies `""` for absent ones). -/
structure TempleData where
  name : Option String
  state : Option String
  info : Option String
  story : Option String
  visiting_guide : Option String
  architecture : Option String
  mention_in_scripture : Option String

/-- `temple_data.get(key, '')`. -/
def getS (o : Option String) : String := o.getD ""

/-- A stored Temple node with its properties (`CREATE (t:Temple {...})`). -/
structure TN where
  name : String
  state : String
  info : String
  story : String
  visiting_guide : String
  architecture : String
  scripture_mentions : String
deriving DecidableEq

/-- A directed relationship, identified by its type and the names of its
endpoint nodes (names are the unique keys of all node types). -/
structure GEdge where
  rel : String
  src : String
  dst : String
deriving DecidableEq

/-- The graph store: Temple nodes with properties, the name-keyed node sets of
the five entity labels, and the relationship set. -/
structure GraphState where
  temples : List TN
  states : List String
  deities : List String
  scriptures : List String
  styles : List String
  festivals : List String
  edges : List GEdge
deriving DecidableEq

/-- The empty store. -/
def emptyStore : GraphState := ⟨[], [], [], [], [], [], []⟩

/-- `TempleGraphDB.clear_database`: `MATCH (n) DETACH DELETE n`. -/
def clear_database (_ : GraphState) : GraphState := emptyStore

/-- `TempleGraphDB.create_constraints`: declares uniqueness constraints only;
no node or relationship is created or removed. -/
def create_constraints (g : GraphState) : GraphState := g

/-- The Temple node built from a record by `create_temple_node`. -/
def templeOf (td : TempleData) : TN :=
  ⟨getS td.name, getS td.state, getS td.info, getS td.story,
    getS td.visiting_guide, getS td.architecture, getS td.mention_in_scripture⟩

/-- `TempleGraphDB.create_temple_node`: `CREATE` always appends a node. -/
def create_temple_node (g : GraphState) (td : TempleData) : GraphState :=
  { g with temples := g.temples ++ [templeOf td] }

/-- `MERGE` an edge: Cypher first `MATCH`es the Temple by name (no edge if no
such temple) and then `MERGE`s the relationship (no duplicate edges). -/
def mergeEdge (g : GraphState) (e : GEdge) : GraphState :=
  if g.temples.any (fun t => t.name == e.src) then
    { g with edges := if e ∈ g.edges then g.edges else g.edges ++ [e] }
  else g

/-- The text handed to the extractors:
`' '.join([info, story, architecture, mention_in_scripture])`. -/
def allText (td : TempleData) : String :=
  String.intercalate " "
    [getS td.info, getS td.story, getS td.architecture, getS td.mention_in_scripture]

/-- One iteration of the deity loop: `MERGE` the Deity node, then `MERGE` the
`DEDICATED_TO` edge from the temple. -/
def deityStep (tname : String) (g : GraphState) (d : String) : GraphState :=
  mergeEdge { g with deities := setAdd g.deities d } ⟨"DEDICATED_TO", tname, d⟩

/-- One iteration of the scripture loop (`MENTIONED_IN`). -/
def scripStep (tname : String) (g : GraphState) (sc : String) : GraphState :=
  mergeEdge { g with scriptures := setAdd g.scriptures sc } ⟨"MENTIONED_IN", tname, sc⟩

/-- One iteration of the style loop (`HAS_STYLE`). -/
def styleStep (tname : String) (g : GraphState) (st : String) : GraphState :=
  mergeEdge { g with styles := setAdd g.styles st } ⟨"HAS_STYLE", tname, st⟩

/-- One iteration of the festival loop (`CELEBRATES`). -/
def festStep (tname : String) (g : GraphState) (f : String) : GraphState :=
  mergeEdge { g with festivals := setAdd g.festivals f } ⟨"CELEBRATES", tname, f⟩

/-- `TempleGraphDB.create_relationships`: the state step runs only when the
state name is non-empty (Python truthiness), then the four extraction loops
run in source order. -/
def create_relationships (g : GraphState) (td : TempleData) : GraphState :=
  let temple_name := getS td.name
  let state_name := getS td.state
  let all_text := allText td
  let g1 := if state_name = "" then g
    else mergeEdge { g with states := setAdd g.states state_name }
      ⟨"LOCATED_IN", temple_name, state_name⟩
  let g2 := (extract_deities all_text).foldl (deityStep temple_name) g1
  let g3 := (extract_scriptures all_text).foldl (scripStep temple_name) g2
  let g4 := (extract_architectural_style all_text).foldl (styleStep temple_name) g3
  (extract_festivals all_text).foldl (festStep temple_name) g4

/-- Processing of one record inside the loader:
`create_temple_node` then `create_relationships`. -/
def processRecord (g : GraphState) (td : TempleData) : GraphState :=
  create_relationships (create_temple_node g td) td

/-- `TempleGraphDB.load_temple_data` on an already-parsed document (a mapping
from state name to its list of temple records): clear the store, declare the
constraints, then process every record. -/
def load_temple_data (g : GraphState) (data : List (String × List TempleData)) : GraphState :=
  let g0 := create_constraints (clear_database g)
  data.foldl (fun acc p => p.2.foldl processRecord acc) g0

/-- Total node count over the six node labels. -/
def nodeCount (g : GraphState) : Nat :=
  g.temples.length + g.states.length + g.deities.length +
    g.scriptures.length + g.styles.length + g.festivals.length

/-- Total relationship count. -/
def edgeCount (g : GraphState) : Nat := g.edges.length

/-- A JSON-like document, as handled by `replace_none`. -/
inductive JVal where
  | null : JVal
  | str : String → JVal
  | num : Int → JVal
  | bool : Bool → JVal
  | arr : List JVal → JVal
  | obj : List (String × JVal) → JVal

mutual

/-- The `replace_none` closure of `load_temple_data`: recurse through
mappings and lists, replace `None` by `''`, keep everything else. -/
def replace_none : JVal → JVal
  | .null => .str ""
  | .str s => .str s
  | .num n => .num n
  | .bool b => .bool b
  | .arr xs => .arr (replaceNoneList xs)
  | .obj kvs => .obj (replaceNoneObj kvs)

/-- `replace_none` over the elements of a list value. -/
def replaceNoneList : List JVal → List JVal
  | [] => []
  | x :: xs => replace_none x :: replaceNoneList xs

/-- `replace_none` over the values of a mapping (keys untouched). -/
def replaceNoneObj : List (String × JVal) → List (String × JVal)
  | [] => []
  | (k, v) :: kvs => (k, replace_none v) :: replaceNoneObj kvs

end

mutual

/-- Specification-side relation (from the spec's words): `d'` is `d` with
every null, at any nesting depth, replaced by the empty string, and with all
non-null values and the document structure (keys, list lengths, element
order) unchanged. -/
def nullsReplaced : JVal → JVal → Bool
  | .null, .str t => t == ""
  | .null, _ => false
  | .str s, .str t => s == t
  | .str _, _ => false
  | .num n, .num m => n == m
  | .num _, _ => false
  | .bool a, .bool b => a == b
  | .bool _, _ => false
  | .arr xs, .arr ys => nullsReplacedList xs ys
  | .arr _, _ => false
  | .obj kvs, .obj kvs2 => nullsReplacedObj kvs kvs2
  | .obj _, _ => false

/-- `nullsReplaced`, element by element over list values. -/
def nullsReplacedList : List JVal → List JVal → Bool
  | [], [] => true
  | x :: xs, y :: ys => nullsReplaced x y && nullsReplacedList xs ys
  | _, _ => false

/-- `nullsReplaced` over mappings: same keys in the same order, values related. -/
def nullsReplacedObj : List (String × JVal) → List (String × JVal) → Bool
  | [], [] => true
  | (k, v) :: kvs, (k2, v2) :: kvs2 => k == k2 && nullsReplaced v v2 && nullsReplacedObj kvs kvs2
  | _, _ => false

end

/-- The edges of the store whose type is `LOCATED_IN`. -/
def locEdges (g : GraphState) : List GEdge := g.edges.filter (fun x => x.rel == "LOCATED_IN")

/-- The example sentence of the spec's testable properties. -/
def exampleText : String :=
  "This temple is dedicated to Lord Venkateswara and follows Dravidian architecture, described in the Skanda Purana."

/-- A fully lowercase input sentence. -/
def lowercaseText : String := "dedicated to shiva kumar"

/-- A concrete record with the `state` field absent. -/
def tdNoState : TempleData :=
  ⟨some "Jagannath Temple", none, some "dedicated to Jagannath", none, none, none, none⟩

/-- The same concrete record with `state` present. -/
def tdOdisha : TempleData :=
  ⟨some "Jagannath Temple", some "Odisha", some "dedicated to Jagannath", none, none, none, none⟩

/-- Lowercasing a character does not change whether it is whitespace. -/
theorem isPySpace_pyLowerChar (c : Char) : isPySpace (pyLowerChar c) = isPySpace c := by
  unfold pyLowerChar
  split <;> rfl

/-- Uppercasing a character does not change whether it is whitespace. -/
theorem isPySpace_pyUpperChar (c : Char) : isPySpace (pyUpperChar c) = isPySpace c := by
  unfold pyUpperChar
  split <;> rfl

/-- `str.title` maps characters in place, preserving the whitespace mask. -/
theorem map_isPySpace_pyTitleGo : ∀ (b : Bool) (l : List Char),
    (pyTitleGo b l).map isPySpace = l.map isPySpace := by
  intro b l
  induction l generalizing b with
  | nil => rfl
  | cons c cs ih =>
    simp only [pyTitleGo, List.map]
    refine congrArg₂ _ ?_ (ih _)
    by_cases hc : isPyAlphaChar c
    · simp only [hc, if_true]
      cases b
      · simp [isPySpace_pyUpperChar]
      · simp [isPySpace_pyLowerChar]
    · simp [hc]

/-- Two lists with the same whitespace mask have `dropWhile` results of equal
length and again equal masks. -/
theorem dropWhile_of_map_eq (p : Char → Bool) :
    ∀ (l l' : List Char), l.map p = l'.map p →
      (l.dropWhile p).length = (l'.dropWhile p).length ∧
        (l.dropWhile p).map p = (l'.dropWhile p).map p := by
  intro l
  induction l with
  | nil =>
    intro l' h
    cases l' with
    | nil => exact ⟨rfl, rfl⟩
    | cons d ds => simp at h
  | cons c cs ih =>
    intro l' h
    cases l' with
    | nil => simp at h
    | cons d ds =>
      simp only [List.map, List.cons.injEq] at h
      obtain ⟨h1, h2⟩ := h
      by_cases hc : p c
      · rw [List.dropWhile_cons_of_pos hc, List.dropWhile_cons_of_pos (h1 ▸ hc)]
        exact ih ds h2
      · rw [List.dropWhile_cons_of_neg hc,
          List.dropWhile_cons_of_neg (fun hd => hc (h1 ▸ hd))]
        have hlen : cs.length = ds.length := by
          have := congrArg List.length h2
          simpa using this
        constructor
        · simp [hlen]
        · simp [List.map, h1, h2]

/-- Stripping two lists with the same whitespace mask gives equal lengths. -/
theorem pyStripList_length_of_map_eq (l l' : List Char)
    (h : l.map isPySpace = l'.map isPySpace) :
    (pyStripList l).length = (pyStripList l').length := by
  unfold pyStripList
  have h1 := dropWhile_of_map_eq isPySpace l l' h
  have h2 : (l.dropWhile isPySpace).reverse.map isPySpace
      = (l'.dropWhile isPySpace).reverse.map isPySpace := by
    rw [List.map_reverse, List.map_reverse, h1.2]
  have h3 := dropWhile_of_map_eq isPySpace _ _ h2
  simpa using h3.1

/-- The head of a `dropWhile` result fails the predicate. -/
theorem dropWhile_head_not {α : Type} (p : α → Bool) :
    ∀ (l : List α) (c : α) (cs : List α), l.dropWhile p = c :: cs → p c = false := by
  intro l
  induction l with
  | nil => intro c cs h; simp at h
  | cons d ds ih =>
    intro c cs h
    by_cases hd : p d
    · rw [List.dropWhile_cons_of_pos hd] at h
      exact ih c cs h
    · rw [List.dropWhile_cons_of_neg hd] at h
      cases h
      simpa using hd

/-- `dropWhile` is idempotent. -/
theorem dropWhile_dropWhile_self {α : Type} (p : α → Bool) (l : List α) :
    (l.dropWhile p).dropWhile p = l.dropWhile p := by
  cases h : l.dropWhile p with
  | nil => rfl
  | cons c cs =>
    have := dropWhile_head_not p l c cs h
    rw [List.dropWhile_cons_of_neg (by simp [this])]

/-- `dropWhile` returns a suffix. -/
theorem dropWhile_suffix_exists {α : Type} (p : α → Bool) :
    ∀ l : List α, ∃ t, l = t ++ l.dropWhile p := by
  intro l
  induction l with
  | nil => exact ⟨[], rfl⟩
  | cons c cs ih =>
    by_cases hc : p c
    · obtain ⟨t, ht⟩ := ih
      exact ⟨c :: t, by rw [List.dropWhile_cons_of_pos hc]; simpa using ht⟩
    · exact ⟨[], by rw [List.dropWhile_cons_of_neg hc]; rfl⟩

/-- Python `strip` is idempotent. -/
theorem pyStripList_idem (l : List Char) : pyStripList (pyStripList l) = pyStripList l := by
  set p := isPySpace with hp
  set A := l.dropWhile p with hA
  set B := (A.reverse.dropWhile p).reverse with hB
  have hBA : ∃ t, A = B ++ t := by
    obtain ⟨t, ht⟩ := dropWhile_suffix_exists p A.reverse
    refine ⟨t.reverse, ?_⟩
    have := congrArg List.reverse ht
    simpa [hB] using this
  have hBdrop : B.dropWhile p = B := by
    cases hBc : B with
    | nil => rfl
    | cons c cs =>
      obtain ⟨t, ht⟩ := hBA
      have hAc : A = c :: (cs ++ t) := by rw [ht, hBc]; rfl
      have hc : p c = false := dropWhile_head_not p l c (cs ++ t) (by rw [← hA, hAc])
      rw [List.dropWhile_cons_of_neg (by simp [hc])]
  have hBrev : B.reverse.dropWhile p = B.reverse := by
    rw [hB, List.reverse_reverse]
    exact dropWhile_dropWhile_self p A.reverse
  show ((B.dropWhile p).reverse.dropWhile p).reverse = B
  rw [hBdrop, hBrev, List.reverse_reverse]

/-- Stripping the title-cased form of an already-stripped string does not
change its length: the key fact behind the `> 2` noise filter. -/
theorem length_pyStrip_pyTitle_pyStrip (m : String) :
    (pyStrip (pyTitle (pyStrip m))).length = (pyStrip m).length := by
  show (pyStripList (pyTitleGo false (pyStripList m.data))).length = (pyStripList m.data).length
  have h1 : (pyStripList (pyTitleGo false (pyStripList m.data))).length
      = (pyStripList (pyStripList m.data)).length :=
    pyStripList_length_of_map_eq _ _ (map_isPySpace_pyTitleGo false _)
  rw [h1, pyStripList_idem]

/-- An element is in the set after adding it. -/
theorem mem_setAdd_self (l : List String) (x : String) : x ∈ setAdd l x := by
  unfold setAdd
  split
  · assumption
  · simp

/-- Adding preserves existing members. -/
theorem mem_setAdd_of_mem {l : List String} {x : String} (y : String) (h : x ∈ l) :
    x ∈ setAdd l y := by
  unfold setAdd
  split
  · exact h
  · simp [h]

/-- A member of `setAdd l y` is a member of `l` or equal to `y`. -/
theorem mem_setAdd_cases {l : List String} {x y : String} (h : x ∈ setAdd l y) :
    x ∈ l ∨ x = y := by
  unfold setAdd at h
  split at h
  · exact Or.inl h
  · simpa using h

/-- Members of a fold whose steps only ever add elements satisfying `P` are
either initial members or satisfy `P`. -/
theorem foldl_mem_or_mem {α : Type} (P : String → Prop) (f : List String → α → List String)
    (l : List α) (hf : ∀ acc m, m ∈ l → ∀ x, x ∈ f acc m → x ∈ acc ∨ P x) :
    ∀ (acc : List String) (x : String), x ∈ l.foldl f acc → x ∈ acc ∨ P x := by
  induction l with
  | nil => intro acc x h; exact Or.inl h
  | cons a t ih =>
    intro acc x h
    rcases ih (fun acc2 m hm => hf acc2 m (List.mem_cons_of_mem a hm)) (f acc a) x h with h2 | h2
    · exact hf acc a (List.mem_cons_self a t) x h2
    · exact Or.inr h2

/-- The gazetteer fold keeps every element already accumulated. -/
theorem gazetteer_foldl_mono (cond : String → Bool) :
    ∀ (l : List String) (acc : List String) (x : String), x ∈ acc →
      x ∈ l.foldl (fun a y => if cond y then setAdd a y else a) acc := by
  intro l
  induction l with
  | nil => intro acc x h; exact h
  | cons a t ih =>
    intro acc x h
    refine ih _ x ?_
    by_cases hc : cond a
    · simpa [hc] using mem_setAdd_of_mem a h
    · simpa [hc] using h

/-- A list element whose condition holds ends up in the gazetteer fold. -/
theorem mem_gazetteer_foldl (cond : String → Bool) :
    ∀ (l : List String) (acc : List String) (d : String), d ∈ l → cond d = true →
      d ∈ l.foldl (fun a y => if cond y then setAdd a y else a) acc := by
  intro l
  induction l with
  | nil => intro acc d h; simp at h
  | cons a t ih =>
    intro acc d hd hcond
    rcases List.mem_cons.mp hd with rfl | hmem
    · refine gazetteer_foldl_mono cond t _ d ?_
      simp only [hcond, if_true]
      exact mem_setAdd_self acc d
    · exact ih _ d hmem hcond

/-- A gazetteer name occurring case-insensitively in a non-empty text is in
the deity extraction result. -/
theorem gazetteer_mem_extract_deities (text d : String) (hne : text ≠ "")
    (hd : d ∈ common_deities) (hc : containsSubstr (pyLower text) (pyLower d) = true) :
    d ∈ extract_deities text := by
  unfold extract_deities
  rw [if_neg hne]
  exact mem_gazetteer_foldl (fun y => containsSubstr (pyLower text) (pyLower y)) _ _ d hd hc

/-- C1: on empty (falsy) input text, each of the four extraction operations
returns the empty collection without failing. -/
theorem claim_C1 :
    extract_deities "" = [] ∧ extract_scriptures "" = [] ∧
      extract_architectural_style "" = [] ∧ extract_festivals "" = [] :=
  ⟨rfl, rfl, rfl, rfl⟩

/-- C2: for every input text, the architectural-style extraction is a sublist
of the fixed five-name vocabulary in its canonical title-cased form and fixed
order — so it contains only vocabulary values, each at most once, in
vocabulary order rather than text order. -/
theorem claim_C2 (text : String) :
    (extract_architectural_style text).Sublist
      ["Dravidian", "Kalinga", "Chola", "Pallava", "Vijayanagara"] := by
  simp only [extract_architectural_style]
  split
  · exact List.nil_sublist _
  · repeat' split
    all_goals decide

/-- C6: every name returned by `extract_deities` has trimmed length strictly
greater than two characters. -/
theorem claim_C6 (text x : String) (hx : x ∈ extract_deities text) :
    2 < (pyStrip x).length := by
  rcases eq_or_ne text "" with rfl | hne
  · rw [show extract_deities "" = [] from rfl] at hx
    exact absurd hx (List.not_mem_nil x)
  · simp only [extract_deities, if_neg hne] at hx
    have hall : ∀ y ∈ common_deities, 2 < (pyStrip y).length := by decide
    have hf1 : ∀ acc m, m ∈ common_deities → ∀ y,
        y ∈ (if containsSubstr (pyLower text) (pyLower m) then setAdd acc m else acc) →
          y ∈ acc ∨ 2 < (pyStrip y).length := by
      intro acc m hm y h
      by_cases hc : containsSubstr (pyLower text) (pyLower m) = true
      · rw [if_pos hc] at h
        rcases mem_setAdd_cases h with h2 | h2
        · exact Or.inl h2
        · exact Or.inr (h2 ▸ hall m hm)
      · rw [if_neg hc] at h
        exact Or.inl h
    have hfInner : ∀ (pat : RPat) acc2 m, m ∈ pyFindAll pat text → ∀ y,
        y ∈ (if 2 < (pyStrip m).length then setAdd acc2 (pyTitle (pyStrip m)) else acc2) →
          y ∈ acc2 ∨ 2 < (pyStrip y).length := by
      intro pat acc2 m _ y h
      by_cases hg : 2 < (pyStrip m).length
      · rw [if_pos hg] at h
        rcases mem_setAdd_cases h with h2 | h2
        · exact Or.inl h2
        · refine Or.inr ?_
          rw [h2]
          rw [length_pyStrip_pyTitle_pyStrip]
          exact hg
      · rw [if_neg hg] at h
        exact Or.inl h
    have hf2 : ∀ acc pat, pat ∈ deity_patterns → ∀ y,
        y ∈ (pyFindAll pat text).foldl
            (fun acc2 m => if 2 < (pyStrip m).length
              then setAdd acc2 (pyTitle (pyStrip m)) else acc2) acc →
          y ∈ acc ∨ 2 < (pyStrip y).length := by
      intro acc pat _ y h
      exact foldl_mem_or_mem _ _ _ (hfInner pat) acc y h
    rcases foldl_mem_or_mem _ _ _ hf1 _ x hx with h2 | h2
    · rcases foldl_mem_or_mem _ _ _ hf2 _ x h2 with h3 | h3
      · exact absurd h3 (List.not_mem_nil x)
      · exact h3
    · exact h2

/-- Witness for C6 at a concrete input. -/
theorem claim_C6_witness :
    ("Shiva" ∈ extract_deities "Lord Shiva") ∧ 2 < (pyStrip "Shiva").length :=
  ⟨by decide, claim_C6 "Lord Shiva" "Shiva" (by decide)⟩

/-- C10: any gazetteer deity name occurring as a case-insensitive substring of
the text — word boundaries and length notwithstanding — is included in the
deity extraction result. -/
theorem claim_C10 (text d : String) (hd : d ∈ common_deities)
    (hc : containsSubstr (pyLower text) (pyLower d) = true) :
    d ∈ extract_deities text := by
  rcases eq_or_ne text "" with rfl | hne
  · exfalso
    fin_cases hd <;> exact absurd hc (by decide)
  · exact gazetteer_mem_extract_deities text d hne hd hc

/-- Witness for C10: the text `"Ramayana"` contains `"rama"` as a proper
substring of a longer word, and `"Rama"` is extracted. -/
theorem claim_C10_witness :
    ("Rama" ∈ common_deities) ∧
      (containsSubstr (pyLower "Ramayana") (pyLower "Rama") = true) ∧
      "Rama" ∈ extract_deities "Ramayana" :=
  ⟨by decide, by decide, claim_C10 "Ramayana" "Rama" (by decide) (by decide)⟩

/-- C9: a wholly lowercase text on which the case-insensitive patterns fire:
the extraction result is non-empty and contains the title-cased phrase
`"Shiva Kumar"`, which only the pattern path can produce. -/
theorem claim_C9 :
    (∀ c ∈ lowercaseText.toList, isPyUpperChar c = false) ∧
      extract_deities lowercaseText ≠ [] ∧
      "Shiva Kumar" ∈ extract_deities lowercaseText :=
  ⟨by decide, by decide, by decide⟩

/-- C3: on the spec's example sentence, the deity set contains
`"Venkateswara"`, the style set is exactly `["Dravidian"]`, and the scripture
set contains `"Skanda Purana"`. -/
theorem claim_C3 :
    "Venkateswara" ∈ extract_deities exampleText ∧
      extract_architectural_style exampleText = ["Dravidian"] ∧
      "Skanda Purana" ∈ extract_scriptures exampleText :=
  ⟨gazetteer_mem_extract_deities exampleText "Venkateswara" (by decide) (by decide) (by decide),
    by decide, by decide⟩

mutual

theorem replace_none_rel_aux : ∀ j : JVal, nullsReplaced j (replace_none j) = true
  | .null => rfl
  | .str s => by simp [replace_none, nullsReplaced]
  | .num n => by simp [replace_none, nullsReplaced]
  | .bool b => by simp [replace_none, nullsReplaced]
  | .arr xs => by
    simpa [replace_none, nullsReplaced] using replace_none_rel_list_aux xs
  | .obj kvs => by
    simpa [replace_none, nullsReplaced] using replace_none_rel_obj_aux kvs

theorem replace_none_rel_list_aux : ∀ xs : List JVal,
    nullsReplacedList xs (replaceNoneList xs) = true
  | [] => rfl
  | x :: xs => by
    simp only [replaceNoneList, nullsReplacedList, Bool.and_eq_true]
    exact ⟨replace_none_rel_aux x, replace_none_rel_list_aux xs⟩

theorem replace_none_rel_obj_aux : ∀ kvs : List (String × JVal),
    nullsReplacedObj kvs (replaceNoneObj kvs) = true
  | [] => rfl
  | (k, v) :: kvs => by
    simp only [replaceNoneObj, nullsReplacedObj, Bool.and_eq_true]
    exact ⟨⟨by simp, replace_none_rel_aux v⟩, replace_none_rel_obj_aux kvs⟩

end

/-- C4: `replace_none` replaces every null at any nesting depth with the empty
string and leaves all non-null values, keys, list lengths and element order
unchanged (as captured by the spec-side relation `nullsReplaced`). -/
theorem claim_C4 (j : JVal) : nullsReplaced j (replace_none j) = true :=
  replace_none_rel_aux j

/-- `mergeEdge` never changes the node sets. -/
theorem mergeEdge_temples (g : GraphState) (e : GEdge) : (mergeEdge g e).temples = g.temples := by
  unfold mergeEdge
  split <;> rfl

/-- `mergeEdge` never changes the State nodes. -/
theorem mergeEdge_states (g : GraphState) (e : GEdge) : (mergeEdge g e).states = g.states := by
  unfold mergeEdge
  split <;> rfl

/-- `mergeEdge` never changes the Deity nodes. -/
theorem mergeEdge_deities (g : GraphState) (e : GEdge) : (mergeEdge g e).deities = g.deities := by
  unfold mergeEdge
  split <;> rfl

/-- `mergeEdge` never changes the Scripture nodes. -/
theorem mergeEdge_scriptures (g : GraphState) (e : GEdge) :
    (mergeEdge g e).scriptures = g.scriptures := by
  unfold mergeEdge
  split <;> rfl

/-- `mergeEdge` never changes the ArchitecturalStyle nodes. -/
theorem mergeEdge_styles (g : GraphState) (e : GEdge) : (mergeEdge g e).styles = g.styles := by
  unfold mergeEdge
  split <;> rfl

/-- `mergeEdge` never changes the Festival nodes. -/
theorem mergeEdge_festivals (g : GraphState) (e : GEdge) :
    (mergeEdge g e).festivals = g.festivals := by
  unfold mergeEdge
  split <;> rfl

/-- `mergeEdge` keeps every existing relationship. -/
theorem mergeEdge_edges_mono (g : GraphState) (e x : GEdge) (h : x ∈ g.edges) :
    x ∈ (mergeEdge g e).edges := by
  unfold mergeEdge
  split
  · simp only []
    split
    · exact h
    · exact List.mem_append_left _ h
  · exact h

/-- When the source temple exists, the merged relationship is present. -/
theorem mergeEdge_self_mem (g : GraphState) (e : GEdge)
    (h : g.temples.any (fun t => t.name == e.src) = true) : e ∈ (mergeEdge g e).edges := by
  unfold mergeEdge
  rw [if_pos h]
  simp only []
  split
  · assumption
  · simp

/-- Merging a relationship of a type other than `LOCATED_IN` leaves the
`LOCATED_IN` relationships unchanged. -/
theorem mergeEdge_locEdges (g : GraphState) (e : GEdge) (h : (e.rel == "LOCATED_IN") = false) :
    (mergeEdge g e).edges.filter (fun x => x.rel == "LOCATED_IN")
      = g.edges.filter (fun x => x.rel == "LOCATED_IN") := by
  unfold mergeEdge
  split
  · simp only []
    split
    · rfl
    · rw [List.filter_append]
      simp [h]
  · rfl

/-- A projection untouched by every step is untouched by the fold. -/
theorem foldl_proj_const {γ : Type} (proj : GraphState → γ) (f : GraphState → String → GraphState)
    (h : ∀ g x, proj (f g x) = proj g) :
    ∀ (l : List String) (g : GraphState), proj (l.foldl f g) = proj g := by
  intro l
  induction l with
  | nil => intro g; rfl
  | cons a t ih => intro g; rw [List.foldl_cons, ih, h]

/-- A fold whose steps keep relationships keeps relationships. -/
theorem foldl_edges_mono (f : GraphState → String → GraphState)
    (h : ∀ g x e, e ∈ g.edges → e ∈ (f g x).edges) :
    ∀ (l : List String) (g : GraphState) (e : GEdge), e ∈ g.edges → e ∈ (l.foldl f g).edges := by
  intro l
  induction l with
  | nil => intro g e he; exact he
  | cons a t ih => intro g e he; exact ih _ e (h g a e he)

/-- A fold whose steps accumulate a name-list projection by `setAdd`. -/
theorem foldl_proj_setAdd (proj : GraphState → List String)
    (f : GraphState → String → GraphState) (h : ∀ g x, proj (f g x) = setAdd (proj g) x) :
    ∀ (l : List String) (g : GraphState), proj (l.foldl f g) = l.foldl setAdd (proj g) := by
  intro l
  induction l with
  | nil => intro g; rfl
  | cons a t ih => intro g; rw [List.foldl_cons, ih, h, List.foldl_cons]

/-- The deity loop step does not touch State nodes. -/
theorem deityStep_states (t : String) (g : GraphState) (d : String) :
    (deityStep t g d).states = g.states := by simp [deityStep, mergeEdge_states]

/-- The deity loop step does not touch Temple nodes. -/
theorem deityStep_temples (t : String) (g : GraphState) (d : String) :
    (deityStep t g d).temples = g.temples := by simp [deityStep, mergeEdge_temples]

/-- The deity loop step merges the Deity node. -/
theorem deityStep_deities (t : String) (g : GraphState) (d : String) :
    (deityStep t g d).deities = setAdd g.deities d := by simp [deityStep, mergeEdge_deities]

/-- The deity loop step does not touch Scripture nodes. -/
theorem deityStep_scriptures (t : String) (g : GraphState) (d : String) :
    (deityStep t g d).scriptures = g.scriptures := by simp [deityStep, mergeEdge_scriptures]

/-- The deity loop step does not touch ArchitecturalStyle nodes. -/
theorem deityStep_styles (t : String) (g : GraphState) (d : String) :
    (deityStep t g d).styles = g.styles := by simp [deityStep, mergeEdge_styles]

/-- The deity loop step does not touch Festival nodes. -/
theorem deityStep_festivals (t : String) (g : GraphState) (d : String) :
    (deityStep t g d).festivals = g.festivals := by simp [deityStep, mergeEdge_festivals]

/-- The deity loop step keeps existing relationships. -/
theorem deityStep_edges_mono (t : String) (g : GraphState) (d : String) (e : GEdge)
    (h : e ∈ g.edges) : e ∈ (deityStep t g d).edges := mergeEdge_edges_mono _ _ _ h

/-- The deity loop step keeps the `LOCATED_IN` relationships unchanged. -/
theorem deityStep_locEdges (t : String) (g : GraphState) (d : String) :
    locEdges (deityStep t g d) = locEdges g := by
  unfold locEdges deityStep
  exact mergeEdge_locEdges _ _ rfl

/-- The scripture loop step does not touch State nodes. -/
theorem scripStep_states (t : String) (g : GraphState) (d : String) :
    (scripStep t g d).states = g.states := by simp [scripStep, mergeEdge_states]

/-- The scripture loop step does not touch Temple nodes. -/
theorem scripStep_temples (t : String) (g : GraphState) (d : String) :
    (scripStep t g d).temples = g.temples := by simp [scripStep, mergeEdge_temples]

/-- The scripture loop step does not touch Deity nodes. -/
theorem scripStep_deities (t : String) (g : GraphState) (d : String) :
    (scripStep t g d).deities = g.deities := by simp [scripStep, mergeEdge_deities]

/-- The scripture loop step merges the Scripture node. -/
theorem scripStep_scriptures (t : String) (g : GraphState) (d : String) :
    (scripStep t g d).scriptures = setAdd g.scriptures d := by
  simp [scripStep, mergeEdge_scriptures]

/-- The scripture loop step does not touch ArchitecturalStyle nodes. -/
theorem scripStep_styles (t : String) (g : GraphState) (d : String) :
    (scripStep t g d).styles = g.styles := by simp [scripStep, mergeEdge_styles]

/-- The scripture loop step does not touch Festival nodes. -/
theorem scripStep_festivals (t : String) (g : GraphState) (d : String) :
    (scripStep t g d).festivals = g.festivals := by simp [scripStep, mergeEdge_festivals]

/-- The scripture loop step keeps existing relationships. -/
theorem scripStep_edges_mono (t : String) (g : GraphState) (d : String) (e : GEdge)
    (h : e ∈ g.edges) : e ∈ (scripStep t g d).edges := mergeEdge_edges_mono _ _ _ h

/-- The scripture loop step keeps the `LOCATED_IN` relationships unchanged. -/
theorem scripStep_locEdges (t : String) (g : GraphState) (d : String) :
    locEdges (scripStep t g d) = locEdges g := by
  unfold locEdges scripStep
  exact mergeEdge_locEdges _ _ rfl

/-- The style loop step does not touch State nodes. -/
theorem styleStep_states (t : String) (g : GraphState) (d : String) :
    (styleStep t g d).states = g.states := by simp [styleStep, mergeEdge_states]

/-- The style loop step does not touch Temple nodes. -/
theorem styleStep_temples (t : String) (g : GraphState) (d : String) :
    (styleStep t g d).temples = g.temples := by simp [styleStep, mergeEdge_temples]

/-- The style loop step does not touch Deity nodes. -/
theorem styleStep_deities (t : String) (g : GraphState) (d : String) :
    (styleStep t g d).deities = g.deities := by simp [styleStep, mergeEdge_deities]

/-- The style loop step does not touch Scripture nodes. -/
theorem styleStep_scriptures (t : String) (g : GraphState) (d : String) :
    (styleStep t g d).scriptures = g.scriptures := by simp [styleStep, mergeEdge_scriptures]

/-- The style loop step merges the ArchitecturalStyle node. -/
theorem styleStep_styles (t : String) (g : GraphState) (d : String) :
    (styleStep t g d).styles = setAdd g.styles d := by simp [styleStep, mergeEdge_styles]

/-- The style loop step does not touch Festival nodes. -/
theorem styleStep_festivals (t : String) (g : GraphState) (d : String) :
    (styleStep t g d).festivals = g.festivals := by simp [styleStep, mergeEdge_festivals]

/-- The style loop step keeps existing relationships. -/
theorem styleStep_edges_mono (t : String) (g : GraphState) (d : String) (e : GEdge)
    (h : e ∈ g.edges) : e ∈ (styleStep t g d).edges := mergeEdge_edges_mono _ _ _ h

/-- The style loop step keeps the `LOCATED_IN` relationships unchanged. -/
theorem styleStep_locEdges (t : String) (g : GraphState) (d : String) :
    locEdges (styleStep t g d) = locEdges g := by
  unfold locEdges styleStep
  exact mergeEdge_locEdges _ _ rfl

/-- The festival loop step does not touch State nodes. -/
theorem festStep_states (t : String) (g : GraphState) (d : String) :
    (festStep t g d).states = g.states := by simp [festStep, mergeEdge_states]

/-- The festival loop step does not touch Temple nodes. -/
theorem festStep_temples (t : String) (g : GraphState) (d : String) :
    (festStep t g d).temples = g.temples := by simp [festStep, mergeEdge_temples]

/-- The festival loop step does not touch Deity nodes. -/
theorem festStep_deities (t : String) (g : GraphState) (d : String) :
    (festStep t g d).deities = g.deities := by simp [festStep, mergeEdge_deities]

/-- The festival loop step does not touch Scripture nodes. -/
theorem festStep_scriptures (t : String) (g : GraphState) (d : String) :
    (festStep t g d).scriptures = g.scriptures := by simp [festStep, mergeEdge_scriptures]

/-- The festival loop step does not touch ArchitecturalStyle nodes. -/
theorem festStep_styles (t : String) (g : GraphState) (d : String) :
    (festStep t g d).styles = g.styles := by simp [festStep, mergeEdge_styles]

/-- The festival loop step merges the Festival node. -/
theorem festStep_festivals (t : String) (g : GraphState) (d : String) :
    (festStep t g d).festivals = setAdd g.festivals d := by
  simp [festStep, mergeEdge_festivals]

/-- The festival loop step keeps existing relationships. -/
theorem festStep_edges_mono (t : String) (g : GraphState) (d : String) (e : GEdge)
    (h : e ∈ g.edges) : e ∈ (festStep t g d).edges := mergeEdge_edges_mono _ _ _ h

/-- The festival loop step keeps the `LOCATED_IN` relationships unchanged. -/
theorem festStep_locEdges (t : String) (g : GraphState) (d : String) :
    locEdges (festStep t g d) = locEdges g := by
  unfold locEdges festStep
  exact mergeEdge_locEdges _ _ rfl

/-- State nodes after `create_relationships`: merged exactly when the record
has a non-empty state name. -/
theorem cr_states_eq (g : GraphState) (td : TempleData) :
    (create_relationships g td).states =
      if getS td.state = "" then g.states else setAdd g.states (getS td.state) := by
  simp only [create_relationships]
  rw [foldl_proj_const GraphState.states _ (festStep_states _),
    foldl_proj_const GraphState.states _ (styleStep_states _),
    foldl_proj_const GraphState.states _ (scripStep_states _),
    foldl_proj_const GraphState.states _ (deityStep_states _)]
  split
  · rfl
  · rw [mergeEdge_states]

/-- `create_relationships` never changes the Temple nodes. -/
theorem cr_temples_eq (g : GraphState) (td : TempleData) :
    (create_relationships g td).temples = g.temples := by
  simp only [create_relationships]
  rw [foldl_proj_const GraphState.temples _ (festStep_temples _),
    foldl_proj_const GraphState.temples _ (styleStep_temples _),
    foldl_proj_const GraphState.temples _ (scripStep_temples _),
    foldl_proj_const GraphState.temples _ (deityStep_temples _)]
  split
  · rfl
  · rw [mergeEdge_temples]

/-- With an empty state name, `create_relationships` adds no `LOCATED_IN`
relationship. -/
theorem cr_locEdges_of_empty (g : GraphState) (td : TempleData) (h : getS td.state = "") :
    locEdges (create_relationships g td) = locEdges g := by
  simp only [create_relationships]
  rw [foldl_proj_const locEdges _ (festStep_locEdges _),
    foldl_proj_const locEdges _ (styleStep_locEdges _),
    foldl_proj_const locEdges _ (scripStep_locEdges _),
    foldl_proj_const locEdges _ (deityStep_locEdges _)]
  rw [if_pos h]

/-- The Deity nodes after `create_relationships` are exactly the merge of the
names extracted from the record's combined text. -/
theorem cr_deities_eq (g : GraphState) (td : TempleData) :
    (create_relationships g td).deities
      = (extract_deities (allText td)).foldl setAdd g.deities := by
  simp only [create_relationships]
  rw [foldl_proj_const GraphState.deities _ (festStep_deities _),
    foldl_proj_const GraphState.deities _ (styleStep_deities _),
    foldl_proj_const GraphState.deities _ (scripStep_deities _),
    foldl_proj_setAdd GraphState.deities _ (deityStep_deities _)]
  congr 1
  split
  · rfl
  · rw [mergeEdge_deities]

/-- The Scripture nodes after `create_relationships`. -/
theorem cr_scriptures_eq (g : GraphState) (td : TempleData) :
    (create_relationships g td).scriptures
      = (extract_scriptures (allText td)).foldl setAdd g.scriptures := by
  simp only [create_relationships]
  rw [foldl_proj_const GraphState.scriptures _ (festStep_scriptures _),
    foldl_proj_const GraphState.scriptures _ (styleStep_scriptures _),
    foldl_proj_setAdd GraphState.scriptures _ (scripStep_scriptures _)]
  congr 1
  rw [foldl_proj_const GraphState.scriptures _ (deityStep_scriptures _)]
  split
  · rfl
  · rw [mergeEdge_scriptures]

/-- The ArchitecturalStyle nodes after `create_relationships`. -/
theorem cr_styles_eq (g : GraphState) (td : TempleData) :
    (create_relationships g td).styles
      = (extract_architectural_style (allText td)).foldl setAdd g.styles := by
  simp only [create_relationships]
  rw [foldl_proj_const GraphState.styles _ (festStep_styles _),
    foldl_proj_setAdd GraphState.styles _ (styleStep_styles _)]
  congr 1
  rw [foldl_proj_const GraphState.styles _ (scripStep_styles _),
    foldl_proj_const GraphState.styles _ (deityStep_styles _)]
  split
  · rfl
  · rw [mergeEdge_styles]

/-- The Festival nodes after `create_relationships`. -/
theorem cr_festivals_eq (g : GraphState) (td : TempleData) :
    (create_relationships g td).festivals
      = (extract_festivals (allText td)).foldl setAdd g.festivals := by
  simp only [create_relationships]
  rw [foldl_proj_setAdd GraphState.festivals _ (festStep_festivals _)]
  congr 1
  rw [foldl_proj_const GraphState.festivals _ (styleStep_festivals _),
    foldl_proj_const GraphState.festivals _ (scripStep_festivals _),
    foldl_proj_const GraphState.festivals _ (deityStep_festivals _)]
  split
  · rfl
  · rw [mergeEdge_festivals]

/-- C5: with an absent or empty state field, processing a record creates no
Region (State) node and no `LOCATED_IN` edge, while the Temple node is still
created with an empty state attribute; with a non-empty state, the State node
and the `LOCATED_IN` edge are upserted. -/
theorem claim_C5 (g : GraphState) (td : TempleData) :
    (getS td.state = "" →
      (processRecord g td).states = g.states ∧
      locEdges (processRecord g td) = locEdges g ∧
      templeOf td ∈ (processRecord g td).temples ∧ (templeOf td).state = "") ∧
    (getS td.state ≠ "" →
      getS td.state ∈ (processRecord g td).states ∧
      GEdge.mk "LOCATED_IN" (getS td.name) (getS td.state) ∈ (processRecord g td).edges) := by
  constructor
  · intro h
    refine ⟨?_, ?_, ?_, h⟩
    · unfold processRecord
      rw [cr_states_eq, if_pos h]
      rfl
    · unfold processRecord
      rw [cr_locEdges_of_empty _ _ h]
      rfl
    · unfold processRecord
      rw [cr_temples_eq]
      simp [create_temple_node]
  · intro h
    constructor
    · unfold processRecord
      rw [cr_states_eq, if_neg h]
      exact mem_setAdd_self _ _
    · unfold processRecord
      simp only [create_relationships]
      rw [if_neg h]
      apply foldl_edges_mono _ (festStep_edges_mono _)
      apply foldl_edges_mono _ (styleStep_edges_mono _)
      apply foldl_edges_mono _ (scripStep_edges_mono _)
      apply foldl_edges_mono _ (deityStep_edges_mono _)
      apply mergeEdge_self_mem
      simp [create_temple_node, templeOf]

/-- Witness for C5: one record without a state and one with state `"Odisha"`. -/
theorem claim_C5_witness :
    ((processRecord emptyStore tdNoState).states = emptyStore.states ∧
      locEdges (processRecord emptyStore tdNoState) = locEdges emptyStore ∧
      templeOf tdNoState ∈ (processRecord emptyStore tdNoState).temples ∧
      (templeOf tdNoState).state = "") ∧
    ("Odisha" ∈ (processRecord emptyStore tdOdisha).states ∧
      GEdge.mk "LOCATED_IN" "Jagannath Temple" "Odisha" ∈ (processRecord emptyStore tdOdisha).edges) :=
  ⟨(claim_C5 emptyStore tdNoState).1 rfl, (claim_C5 emptyStore tdOdisha).2 (by decide)⟩

/-- C7: the text handed to the extractors is the space-joined concatenation of
exactly the record's info, story, architecture and scripture-mention fields;
the name, state and visiting-guide fields contribute nothing to the entity
nodes produced by relationship creation. -/
theorem claim_C7 (g : GraphState) (td : TempleData) (n s vg : Option String) :
    allText { td with name := n, state := s, visiting_guide := vg } = allText td ∧
    allText td = getS td.info ++ " " ++ getS td.story ++ " " ++ getS td.architecture
      ++ " " ++ getS td.mention_in_scripture ∧
    (create_relationships g { td with name := n, state := s, visiting_guide := vg }).deities
      = (create_relationships g td).deities ∧
    (create_relationships g { td with name := n, state := s, visiting_guide := vg }).scriptures
      = (create_relationships g td).scriptures ∧
    (create_relationships g { td with name := n, state := s, visiting_guide := vg }).styles
      = (create_relationships g td).styles ∧
    (create_relationships g { td with name := n, state := s, visiting_guide := vg }).festivals
      = (create_relationships g td).festivals := by
  have h1 : allText { td with name := n, state := s, visiting_guide := vg } = allText td := rfl
  refine ⟨h1, ?_, ?_, ?_, ?_, ?_⟩
  · simp [allText, String.intercalate, String.intercalate.go, String.append_assoc]
  · rw [cr_deities_eq, cr_deities_eq, h1]
  · rw [cr_scriptures_eq, cr_scriptures_eq, h1]
  · rw [cr_styles_eq, cr_styles_eq, h1]
  · rw [cr_festivals_eq, cr_festivals_eq, h1]

/-- The result of the loader does not depend on the incoming store state:
the first thing it does is clear the store. -/
theorem load_temple_data_const (g g2 : GraphState) (d : List (String × List TempleData)) :
    load_temple_data g d = load_temple_data g2 d := rfl

/-- C8: running the loader twice in succession on the same document leaves the
store with exactly the node and edge counts of a single run — indeed with the
identical store — because each run clears the store before rebuilding. -/
theorem claim_C8 (g : GraphState) (d : List (String × List TempleData)) :
    nodeCount (load_temple_data (load_temple_data g d) d) = nodeCount (load_temple_data g d) ∧
    edgeCount (load_temple_data (load_temple_data g d) d) = edgeCount (load_temple_data g d) ∧
    load_temple_data (load_temple_data g d) d = load_temple_data g d := by
  have h := load_temple_data_const (load_temple_data g d) g d
  exact ⟨by rw [h], by rw [h], h⟩
